import Mathlib

/-!
Verification of the Halloween MMORPG WebSocket server (`src/server.js`).

The development is a shallow embedding of the server's state and handlers:

* JavaScript numbers (player coordinates, click coordinates, speeds) are
  modelled as real numbers; timestamps (`Date.now()`) as integers.
* The JavaScript objects `players`, `spriteDatabase` and the `connections`
  map are modelled as association lists keyed by strings, with JS-object
  update semantics (replace the existing binding in place, else append).
* Network sends are modelled by returning the list of
  `(recipient, message)` pairs a handler emits; a connection is a pair of
  a player id and its open flag (`readyState === WebSocket.OPEN`).
* `fs` writes of frame images are modelled by an append-only store of
  `(path, bytes)` pairs; base64 decoding of a frame payload fails exactly
  when the payload is not a string (in the source, `base64Data.replace`
  throws a `TypeError` on non-strings, while `Buffer.from(_, 'base64')`
  is total on strings).
-/

namespace Mmorpg

/-- The four cardinal facing directions of a player. -/
inductive Direction where
  | north
  | south
  | east
  | west
deriving DecidableEq

/-- One entry of the global `players` object (`server.js`, `handlePlayerJoin`).
Coordinates are real-valued, `targetX`/`targetY` are the nullable
click-to-move destination, `animationFrame` cycles through 0..2. -/
structure Player where
  id : String
  x : ℝ
  y : ℝ
  sprite : String
  facing : Direction
  isMoving : Bool
  username : String
  targetX : Option ℝ
  targetY : Option ℝ
  animationFrame : ℕ
  lastAnimationUpdate : ℤ

/-- Per-direction animation frame references of a sprite
(`spriteData.frames` in `server.js`). -/
structure Frames where
  north : List String
  south : List String
  east : List String
  west : List String
deriving DecidableEq

/-- One entry of the global `spriteDatabase` object. Directory-scanned
sprites have `custom = false`; uploaded sprites set `custom: true`. -/
structure Sprite where
  name : String
  frames : Frames
  lastModified : ℤ
  custom : Bool
deriving DecidableEq

/-- JS-object lookup on an association list (first binding wins;
JS objects never hold duplicate keys). -/
def alookup {α : Type} : List (String × α) → String → Option α
  | [], _ => none
  | e :: rest, k => if e.1 = k then some e.2 else alookup rest k

/-- JS-object assignment `obj[k] = v`: replace the existing binding in
place, else append a new one. -/
def ainsert {α : Type} : List (String × α) → String → α → List (String × α)
  | [], k, v => [(k, v)]
  | e :: rest, k, v => if e.1 = k then (k, v) :: rest else e :: ainsert rest k v

theorem alookup_ainsert_self {α : Type} (l : List (String × α)) (k : String) (v : α) :
    alookup (ainsert l k v) k = some v := by
  induction l with
  | nil => simp [ainsert, alookup]
  | cons e rest ih =>
    by_cases h : e.1 = k
    · simp [ainsert, alookup, h]
    · simp [ainsert, alookup, h, ih]

theorem ainsert_self_of_alookup {α : Type} (l : List (String × α)) (k : String) (v : α)
    (h : alookup l k = some v) : ainsert l k v = l := by
  induction l with
  | nil => simp [alookup] at h
  | cons e rest ih =>
    by_cases he : e.1 = k
    · simp [alookup, he] at h
      simp [ainsert, he, ← h]
      rw [← he]
    · simp [alookup, he] at h
      simp [ainsert, he, ih h]

/-- `world.width` in `server.js`. -/
def worldWidth : ℝ := 4096

/-- `world.height` in `server.js`. -/
def worldHeight : ℝ := 4096

/-- `clamp(value, min, max)` from `server.js`:
`Math.min(Math.max(value, min), max)`. -/
def clamp (value lo hi : ℝ) : ℝ := min (max value lo) hi

/-- `distance(x1, y1, x2, y2)` from `server.js`:
`Math.sqrt((x2 - x1) ** 2 + (y2 - y1) ** 2)`. -/
noncomputable def distance (x1 y1 x2 y2 : ℝ) : ℝ :=
  Real.sqrt ((x2 - x1) ^ 2 + (y2 - y1) ^ 2)

/-- The repeated animation-frame advance block of `server.js`
(`if (now - player.lastAnimationUpdate > threshold) { ... }`); the
threshold is 200ms while moving and 1000ms while idle. -/
def animAdvance (p : Player) (now threshold : ℤ) : Player :=
  if now - p.lastAnimationUpdate > threshold then
    { p with animationFrame := (p.animationFrame + 1) % 3, lastAnimationUpdate := now }
  else p

/-- The `movement.stop` branch of `handlePlayerMove`. -/
def stopPlayer (p : Player) : Player :=
  { p with isMoving := false, targetX := none, targetY := none, animationFrame := 0 }

/-- The `switch (movement.direction)` block of `handlePlayerMove`:
axis displacement by `speed = 15`, clamped against 0 and
`world - 50`, with the new facing; an unrecognized direction string
leaves position and facing unchanged (the `switch` has no default). -/
def directionApply (p : Player) (d : String) : Player :=
  let m :=
    if d = "up" then (p.x, max 0 (p.y - 15), Direction.north)
    else if d = "down" then (p.x, min (worldHeight - 50) (p.y + 15), Direction.south)
    else if d = "left" then (max 0 (p.x - 15), p.y, Direction.west)
    else if d = "right" then (min (worldWidth - 50) (p.x + 15), p.y, Direction.east)
    else (p.x, p.y, p.facing)
  { p with x := m.1, y := m.2.1, facing := m.2.2, isMoving := true,
           targetX := none, targetY := none }

/-- The full WASD branch of `handlePlayerMove`: apply the displacement,
then the 200ms animation-frame advance at command-arrival time. -/
def directionStep (p : Player) (d : String) (now : ℤ) : Player :=
  animAdvance (directionApply p d) now 200

/-- The `data.movement` payload of a `player`/`move` message: a JS object
that may carry a truthy `stop` flag, a `direction` string and
`x`/`y` click coordinates. -/
structure Movement where
  stop : Bool
  direction : Option String
  x : Option ℝ
  y : Option ℝ

/-- The click-to-move branch of `handlePlayerMove` (runs when both
`movement.x` and `movement.y` are defined): store the clamped,
footprint-centred target; the position itself is not touched. -/
def applyClick (p : Player) (m : Movement) : Player :=
  match m.x, m.y with
  | some mx, some my =>
      { p with targetX := some (clamp (mx - 25) 0 (worldWidth - 50)),
               targetY := some (clamp (my - 25) 0 (worldHeight - 50)) }
  | _, _ => p

/-- The state change of `handlePlayerMove` on an existing player: the
branches are tried in source order (`stop`, then a truthy `direction`
string — the empty string is falsy in JS — then the click coordinates);
a movement with none of them leaves the player unchanged. -/
def applyMovement (p : Player) (m : Movement) (now : ℤ) : Player :=
  if m.stop then stopPlayer p
  else
    match m.direction with
    | some d => if d = "" then applyClick p m else directionStep p d now
    | none => applyClick p m

/-- Whether `handlePlayerMove` emits a `player moved` broadcast: the
`stop` and WASD branches broadcast, the click branch and the empty
fall-through do not. -/
def movementBroadcasts (m : Movement) : Bool :=
  m.stop ||
    (match m.direction with
     | some d => d != ""
     | none => false)

/-- The payload fields spread into a response (`responseData`) or an
update (`updateData`) in `server.js`. -/
inductive Payload where
  | player (p : Player)
  | playerId (id : String)
  | joinData (playerId : String) (worldState : List (String × Player))
  | sprite (s : Sprite)
  | spriteList (db : List (String × Sprite))

/-- A response envelope built by `sendResponse`: `responseData` is
spread in only on success, `error` is attached only on failure when
one was supplied. -/
structure Response where
  action : String
  success : Bool
  payload : Option Payload
  error : Option String

/-- An update envelope built by `broadcastUpdate`. -/
structure Update where
  category : String
  action : String
  payload : Payload

/-- A server-to-client message (`type: 'response'` or `type: 'update'`). -/
inductive Msg where
  | response (r : Response)
  | update (u : Update)

/-- The `connections` map: player id to socket, where the `Bool` records
whether `ws.readyState === WebSocket.OPEN`. -/
abbrev Connections := List (String × Bool)

/-- `sendToPlayer(playerId, data)`: deliver only if the id has a
connection and it is open. -/
def sendToPlayer (conns : Connections) (pid : String) (msg : Msg) : List (String × Msg) :=
  match alookup conns pid with
  | some true => [(pid, msg)]
  | _ => []

/-- `sendResponse(playerId, action, success, responseData, error)`. -/
def sendResponse (conns : Connections) (pid : String) (action : String) (success : Bool)
    (payload : Option Payload) (error : Option String) : List (String × Msg) :=
  sendToPlayer conns pid
    (.response ⟨action, success, if success then payload else none,
                if success = false then error else none⟩)

/-- `broadcast(data, excludePlayerId)`: send to every open connection
whose id differs from `excludePlayerId` (`null` excludes nobody). -/
def broadcast (conns : Connections) (exclude : Option String) (msg : Msg) :
    List (String × Msg) :=
  (conns.filter (fun c => decide (exclude ≠ some c.1) && c.2)).map (fun c => (c.1, msg))

/-- `broadcastUpdate(category, action, updateData, excludePlayerId)`. -/
def broadcastUpdate (conns : Connections) (category action : String) (payload : Payload)
    (exclude : Option String) : List (String × Msg) :=
  broadcast conns exclude (.update ⟨category, action, payload⟩)

/-- `handlePlayerMove(playerId, movement)`: returns the new `players`
object together with the emitted messages. An id with no player record
returns immediately (`if (!player) return`), mutating nothing and
sending nothing. -/
def handlePlayerMove (conns : Connections) (players : List (String × Player))
    (pid : String) (m : Movement) (now : ℤ) :
    List (String × Player) × List (String × Msg) :=
  match alookup players pid with
  | none => (players, [])
  | some player =>
      let p := applyMovement player m now
      (ainsert players pid p,
       if movementBroadcasts m then
         broadcastUpdate conns "player" "moved" (.player p) none
       else [])

/-- `handlePlayerChangeSprite(playerId, spriteName)`: succeeds only when
the player exists, the name is truthy (non-empty) and registered in the
sprite database; otherwise the player is untouched and a failure
response is sent, naming the sprite only when the name was truthy. -/
def handlePlayerChangeSprite (conns : Connections) (spriteDatabase : List (String × Sprite))
    (players : List (String × Player)) (pid : String) (spriteName : Option String) :
    List (String × Player) × List (String × Msg) :=
  match alookup players pid, spriteName with
  | some player, some s =>
      if s ≠ "" ∧ (alookup spriteDatabase s).isSome then
        let p := { player with sprite := s, animationFrame := 0 }
        (ainsert players pid p,
         sendResponse conns pid "change_sprite" true none none ++
           broadcastUpdate conns "player" "changed_sprite" (.player p) none)
      else
        (players,
         sendResponse conns pid "change_sprite" false none
           (some (if s ≠ "" then "Sprite \"" ++ s ++ "\" does not exist"
                  else "No sprite specified")))
  | none, some s =>
      (players,
       sendResponse conns pid "change_sprite" false none
         (some (if s ≠ "" then "Sprite \"" ++ s ++ "\" does not exist"
                else "No sprite specified")))
  | _, none =>
      (players, sendResponse conns pid "change_sprite" false none (some "No sprite specified"))

/-- The `data.playerInfo` payload of a `player`/`join` message. -/
structure PlayerInfo where
  sprite : Option String
  username : Option String

/-- `handlePlayerJoin(playerId, playerInfo)`. A fresh id allocates a
record at the random position `(randX, randY)` (the source draws
`Math.floor(Math.random() * (world - 50))`), validating the requested
sprite against the database (a falsy or unknown name falls back to
`'default'`) and defaulting a falsy username from the id prefix. An
existing id is left exactly as stored. Either way the join response
carries the full `players` snapshot, and a `joined` update is broadcast
to everyone but the joiner. -/
def handlePlayerJoin (conns : Connections) (spriteDatabase : List (String × Sprite))
    (players : List (String × Player)) (pid : String) (info : PlayerInfo)
    (randX randY : ℝ) (now : ℤ) :
    List (String × Player) × List (String × Msg) :=
  match alookup players pid with
  | some player =>
      (players,
       sendResponse conns pid "join" true (some (.joinData pid players)) none ++
         broadcastUpdate conns "player" "joined" (.player player) (some pid))
  | none =>
      let spriteName :=
        match info.sprite with
        | some s => if s ≠ "" ∧ (alookup spriteDatabase s).isSome then s else "default"
        | none => "default"
      let username :=
        match info.username with
        | some u => if u ≠ "" then u else "Player" ++ pid.take 4
        | none => "Player" ++ pid.take 4
      let p : Player :=
        ⟨pid, randX, randY, spriteName, .south, false, username, none, none, 0, now⟩
      let players' := ainsert players pid p
      (players',
       sendResponse conns pid "join" true (some (.joinData pid players')) none ++
         broadcastUpdate conns "player" "joined" (.player p) (some pid))

/-- `movePlayerTowards(player, targetX, targetY, speed)`: within reach,
snap exactly onto the target and report arrival; otherwise advance by
`speed` along the direction vector, face the dominant axis of the
displacement just applied, and clamp into the world. -/
noncomputable def movePlayerTowards (player : Player) (targetX targetY : ℝ)
    (speed : ℝ := 5) : Player × Bool :=
  let dist := distance player.x player.y targetX targetY
  if dist ≤ speed then
    ({ player with x := targetX, y := targetY, isMoving := false }, true)
  else
    let r := speed / dist
    let oldX := player.x
    let oldY := player.y
    let newX := player.x + (targetX - player.x) * r
    let newY := player.y + (targetY - player.y) * r
    let deltaX := newX - oldX
    let deltaY := newY - oldY
    let newFacing :=
      if |deltaX| > |deltaY| then (if deltaX > 0 then Direction.east else Direction.west)
      else (if deltaY > 0 then Direction.south else Direction.north)
    ({ player with
        x := clamp newX 0 (worldWidth - 50),
        y := clamp newY 0 (worldHeight - 50),
        facing := newFacing,
        isMoving := true }, false)

/-- The per-player body of the 50ms game loop in `server.js`: pursue the
target at speed 3 when both coordinates are set (on arrival clear the
target and reset to the idle frame, otherwise advance the 200ms walking
animation); a player without a full target runs the 1000ms idle
animation when not moving. -/
noncomputable def tickPlayer (player : Player) (now : ℤ) : Player :=
  match player.targetX, player.targetY with
  | some tx, some ty =>
      let res := movePlayerTowards player tx ty 3
      if res.2 then
        { res.1 with targetX := none, targetY := none, isMoving := false,
                     animationFrame := 0 }
      else animAdvance res.1 now 200
  | _, _ =>
      if player.isMoving = false then animAdvance player now 1000 else player

/-- Whether the loop body set `hasUpdates` for some player this tick:
either a pursuit target was set, or the idle animation advanced. -/
def tickHasUpdates (players : List (String × Player)) (now : ℤ) : Bool :=
  players.any fun e =>
    (e.2.targetX.isSome && e.2.targetY.isSome) ||
      (!e.2.isMoving && decide (now - e.2.lastAnimationUpdate > 1000))

/-- One full iteration of the 50ms `setInterval` game loop: process every
player, then — only if `hasUpdates` — broadcast a `player moved` update
(to all open connections, nobody excluded) for every player that still
has a target coordinate set or is flagged as moving. -/
noncomputable def gameTick (conns : Connections) (players : List (String × Player))
    (now : ℤ) : List (String × Player) × List (String × Msg) :=
  let processed := players.map fun e => (e.1, tickPlayer e.2 now)
  let msgs :=
    if tickHasUpdates players now then
      (processed.filter fun e =>
        e.2.targetX.isSome || e.2.targetY.isSome || e.2.isMoving).flatMap
        fun e => broadcastUpdate conns "player" "moved" (.player e.2) none
    else []
  (processed, msgs)

/-- Iterated game-loop ticks acting on a single player, fed an arbitrary
stream of `Date.now()` values, one per tick. -/
noncomputable def pursue (ts : ℕ → ℤ) : ℕ → Player → Player
  | 0, p => p
  | k + 1, p => pursue (fun i => ts (i + 1)) k (tickPlayer p (ts 0))

/-- The file path `sprites/<name>/<direction>_<frame>.png` recorded for a
frame both by the directory scan and by uploads. -/
def framePath (spriteName dir : String) (frame : ℕ) : String :=
  "sprites/" ++ spriteName ++ "/" ++ dir ++ "_" ++ toString frame ++ ".png"

/-- A sprite folder on disk as seen by `scanSpritesDirectory`:
`hasFrame dir i` tells whether the file `<dir>_<i>.png` exists, and
`mtime` is the folder's `fs.statSync(...).mtime`. -/
structure SpriteFolder where
  name : String
  hasFrame : String → ℕ → Bool
  mtime : ℤ

/-- The frame references collected for one direction of a folder: the
scan probes frames 1, 2, 3 in order and records each existing file. -/
def scanFrames (f : SpriteFolder) (dir : String) : List String :=
  (List.range 3).filterMap fun i =>
    if f.hasFrame dir (i + 1) then some (framePath f.name dir (i + 1)) else none

/-- The per-folder body of `scanSpritesDirectory`: skip the folder when
the stored entry is at least as recent; otherwise build the candidate
(west is a copy of east) and admit it only when north, south and east
each found at least one frame. -/
def scanSprite (spriteDatabase : List (String × Sprite)) (f : SpriteFolder) :
    List (String × Sprite) :=
  let fresh : Bool :=
    match alookup spriteDatabase f.name with
    | some existing => !decide (existing.lastModified ≥ f.mtime)
    | none => true
  if fresh then
    let north := scanFrames f "north"
    let south := scanFrames f "south"
    let east := scanFrames f "east"
    if north ≠ [] ∧ south ≠ [] ∧ east ≠ [] then
      ainsert spriteDatabase f.name ⟨f.name, ⟨north, south, east, east⟩, f.mtime, false⟩
    else spriteDatabase
  else spriteDatabase

/-- `scanSpritesDirectory()` over the folders currently on disk. -/
def scanSpritesDirectory (spriteDatabase : List (String × Sprite))
    (folders : List SpriteFolder) : List (String × Sprite) :=
  folders.foldl scanSprite spriteDatabase

/-- The asset store written by `fs.writeFileSync` during uploads:
path/bytes pairs, in write order. -/
abbrev Store := List (String × String)

/-- A frame payload from an upload request. JSON strings decode
successfully (`Buffer.from(s, 'base64')` is total on strings after the
data-URL prefix is stripped); any non-string payload makes
`base64Data.replace` throw. A payload is therefore `some` bytes or
`none` for a non-string. -/
def decodeFrame : Option String → Except String String
  | some s => .ok s
  | none => .error "frame payload is not a string"

/-- The `frameArray.forEach` body of `addCustomSprite` for one direction:
decode each frame, write it to `sprites/<name>/<dir>_<index+1>.png`, and
collect the recorded references. A decode failure aborts with the
writes made so far still in the store. -/
def writeFrames (spriteName dir : String) :
    List (Option String) → ℕ → Store → Store × Except String (List String)
  | [], _, store => (store, .ok [])
  | f :: rest, i, store =>
      match decodeFrame f with
      | .error e => (store, .error e)
      | .ok bytes =>
          let path := framePath spriteName dir (i + 1)
          match writeFrames spriteName dir rest (i + 1) (store ++ [(path, bytes)]) with
          | (store', .ok paths) => (store', .ok (path :: paths))
          | (store', .error e) => (store', .error e)

/-- The required directions an upload may supply
(`['north', 'south', 'east'].includes(direction)`). -/
def requiredDirections : List String := ["north", "south", "east"]

/-- Append the collected references for one direction onto the frames
record (`spriteData.frames[direction].push(...)`). -/
def framesAppend (fr : Frames) (dir : String) (paths : List String) : Frames :=
  if dir = "north" then { fr with north := fr.north ++ paths }
  else if dir = "south" then { fr with south := fr.south ++ paths }
  else if dir = "east" then { fr with east := fr.east ++ paths }
  else fr

/-- The `Object.entries(imageData)` loop of `addCustomSprite`: entries
whose key is not a required direction are skipped; a decode failure
anywhere propagates as the thrown exception. -/
def uploadFrames (spriteName : String) :
    List (String × List (Option String)) → Store → Frames → Store × Except String Frames
  | [], store, fr => (store, .ok fr)
  | (dir, arr) :: rest, store, fr =>
      if dir ∈ requiredDirections then
        match writeFrames spriteName dir arr 0 store with
        | (store', .ok paths) => uploadFrames spriteName rest store' (framesAppend fr dir paths)
        | (store', .error e) => (store', .error e)
      else uploadFrames spriteName rest store fr

/-- `addCustomSprite(spriteName, imageData)`: write every supplied frame
of the required directions, copy east onto west, stamp `Date.now()`,
mark the sprite `custom` and register it unconditionally — there is no
check that the required directions were supplied at all. A thrown decode
error leaves the database untouched (its partial file writes remain in
the store). -/
def addCustomSprite (spriteDatabase : List (String × Sprite)) (store : Store)
    (spriteName : String) (imageData : List (String × List (Option String))) (now : ℤ) :
    Store × Except String (List (String × Sprite) × Sprite) :=
  match uploadFrames spriteName imageData store ⟨[], [], [], []⟩ with
  | (store', .error e) => (store', .error e)
  | (store', .ok fr) =>
      let s : Sprite := ⟨spriteName, { fr with west := fr.east }, now, true⟩
      (store', .ok (ainsert spriteDatabase spriteName s, s))

/-- The `upload` case of `handleSpriteMessage`: on success the new sprite
is broadcast (inside `addCustomSprite`, excluding nobody) and a success
response follows; a thrown error is caught and answered with a failure
response carrying `error.message`, leaving the database as it was. -/
def handleSpriteUpload (conns : Connections) (spriteDatabase : List (String × Sprite))
    (store : Store) (pid : String) (spriteName : String)
    (imageData : List (String × List (Option String))) (now : ℤ) :
    List (String × Sprite) × Store × List (String × Msg) :=
  match addCustomSprite spriteDatabase store spriteName imageData now with
  | (store', .ok (db', s)) =>
      (db', store',
       broadcastUpdate conns "sprite" "added" (.sprite s) none ++
         sendResponse conns pid "upload" true (some (.sprite s)) none)
  | (store', .error e) =>
      (spriteDatabase, store', sendResponse conns pid "upload" false none (some e))

/-- One operation that can mutate the sprite database after startup: a
periodic directory reconciliation or a client upload (a failed upload
leaves the database unchanged). -/
inductive CatalogOp where
  | scan (folders : List SpriteFolder)
  | upload (name : String) (imageData : List (String × List (Option String))) (now : ℤ)

/-- The sprite-database effect of one catalog operation. -/
def applyCatalogOp (spriteDatabase : List (String × Sprite)) : CatalogOp →
    List (String × Sprite)
  | .scan folders => scanSpritesDirectory spriteDatabase folders
  | .upload name imageData now =>
      match (addCustomSprite spriteDatabase [] name imageData now).2 with
      | .ok (db', _) => db'
      | .error _ => spriteDatabase

/-- The position bounds stated in the spec: both coordinates within
`[0, 4046]` (`4046 = 4096 - 50`, the world size minus the entity
footprint). -/
def PosInBounds (x y : ℝ) : Prop := 0 ≤ x ∧ x ≤ 4046 ∧ 0 ≤ y ∧ y ≤ 4046

/-- The bounds invariant on a player: its position is in bounds and any
stored target coordinate is in bounds as well. -/
def PlayerInBounds (p : Player) : Prop :=
  PosInBounds p.x p.y ∧
    (∀ tx, p.targetX = some tx → 0 ≤ tx ∧ tx ≤ 4046) ∧
    (∀ ty, p.targetY = some ty → 0 ≤ ty ∧ ty ≤ 4046)

/-- Either kind of event that changes a single player's motion state: an
inbound move command or one game-loop tick. -/
inductive PlayerStep where
  | command (m : Movement) (now : ℤ)
  | tick (now : ℤ)

/-- The player-state effect of one `PlayerStep`. -/
noncomputable def stepPlayer (p : Player) : PlayerStep → Player
  | .command m now => applyMovement p m now
  | .tick now => tickPlayer p now

/-- The catalog invariant that actually holds of `spriteDatabase`: every
entry's west frame list is a copy of its east list, and every entry that
came from the directory scan (`custom = false`) has at least one frame
for each required direction. -/
def CatalogWellFormed (db : List (String × Sprite)) : Prop :=
  ∀ name s, alookup db name = some s →
    s.frames.west = s.frames.east ∧
    (s.custom = false →
      s.frames.north ≠ [] ∧ s.frames.south ≠ [] ∧ s.frames.east ≠ [])

/-- A sample player standing at (100, 100), as in the spec's movement
scenario. -/
def samplePlayer : Player :=
  ⟨"abc123def", 100, 100, "default", .south, false, "Player123", none, none, 0, 0⟩

/-- The movement payload `{direction: "up"}`. -/
def moveUp : Movement := ⟨false, some "up", none, none⟩

/-- The movement payload `{stop: true}`. -/
def moveStop : Movement := ⟨true, none, none, none⟩

/-- A keyboard-moved player: `isMoving` is still true but no pursuit
target is set (WASD movement clears the target). -/
def walkerPlayer : Player :=
  ⟨"walker", 200, 200, "default", .east, true, "Walker", none, none, 1, 0⟩

/-- An idle player whose idle-animation threshold has long expired at
`now = 2000`. -/
def idlerPlayer : Player :=
  ⟨"idler", 300, 300, "default", .south, false, "Idler", none, none, 0, 0⟩

/-- A player standing at (100, 100) pursuing the stored click target
(100, 85), at Euclidean distance 15 (five pursuit ticks at speed 3). -/
def pursuerPlayer : Player :=
  ⟨"p1", 100, 100, "default", .south, true, "P", some 100, some 85, 1, 0⟩

/-- A catalog-operation sequence consisting of one well-formed upload. -/
def heroOps : List CatalogOp :=
  [.upload "hero" [("north", [some "a"]), ("south", [some "b"]), ("east", [some "c"])] 7]

/-- The catalog entry `heroOps` registers. -/
def heroSprite : Sprite :=
  ⟨"hero",
   ⟨[framePath "hero" "north" 1], [framePath "hero" "south" 1],
    [framePath "hero" "east" 1], [framePath "hero" "east" 1]⟩, 7, true⟩

@[simp]
theorem animAdvance_x (p : Player) (now th : ℤ) : (animAdvance p now th).x = p.x := by
  unfold animAdvance; split <;> rfl

@[simp]
theorem animAdvance_y (p : Player) (now th : ℤ) : (animAdvance p now th).y = p.y := by
  unfold animAdvance; split <;> rfl

@[simp]
theorem animAdvance_facing (p : Player) (now th : ℤ) :
    (animAdvance p now th).facing = p.facing := by
  unfold animAdvance; split <;> rfl

@[simp]
theorem animAdvance_isMoving (p : Player) (now th : ℤ) :
    (animAdvance p now th).isMoving = p.isMoving := by
  unfold animAdvance; split <;> rfl

@[simp]
theorem animAdvance_targetX (p : Player) (now th : ℤ) :
    (animAdvance p now th).targetX = p.targetX := by
  unfold animAdvance; split <;> rfl

@[simp]
theorem animAdvance_targetY (p : Player) (now th : ℤ) :
    (animAdvance p now th).targetY = p.targetY := by
  unfold animAdvance; split <;> rfl

@[simp]
theorem animAdvance_sprite (p : Player) (now th : ℤ) :
    (animAdvance p now th).sprite = p.sprite := by
  unfold animAdvance; split <;> rfl

theorem alookup_ainsert {α : Type} (l : List (String × α)) (k k' : String) (v : α) :
    alookup (ainsert l k v) k' = if k = k' then some v else alookup l k' := by
  induction l with
  | nil => simp [ainsert, alookup]
  | cons e rest ih =>
    by_cases he : e.1 = k
    · simp only [ainsert, if_pos he, alookup]
      by_cases hk : k = k'
      · simp [hk]
      · have hek' : ¬e.1 = k' := fun h => hk (he.symm.trans h)
        simp [hk, hek']
    · simp only [ainsert, if_neg he, alookup]
      by_cases hek : e.1 = k'
      · have hkk : ¬k = k' := fun h => he (by rw [hek, h])
        simp [hek, hkk]
      · simp [hek, ih]

/-- Claim C10: a move command arriving for a session id that has no
player record in the registry returns immediately: no registry state is
mutated and no message of any kind is emitted. -/
theorem move_unknown_player_noop (conns : Connections) (players : List (String × Player))
    (pid : String) (m : Movement) (now : ℤ) (h : alookup players pid = none) :
    handlePlayerMove conns players pid m now = (players, []) := by
  simp [handlePlayerMove, h]

theorem move_unknown_player_noop_witness :
    alookup ([] : List (String × Player)) "ghost" = none ∧
      handlePlayerMove [("ghost", true)] [] "ghost" moveStop 0 = ([], []) :=
  ⟨rfl, move_unknown_player_noop [("ghost", true)] [] "ghost" moveStop 0 rfl⟩

/-- Claim C4: processing a stop command for an existing player always
stores a state with `isMoving = false`, both target coordinates null and
`animationFrame = 0`, whatever the prior motion state, and the command
always takes effect (the `moved` update is broadcast). -/
theorem stop_command_resets (conns : Connections) (players : List (String × Player))
    (pid : String) (p : Player) (m : Movement) (now : ℤ)
    (hp : alookup players pid = some p) (hstop : m.stop = true) :
    alookup (handlePlayerMove conns players pid m now).1 pid = some (stopPlayer p) ∧
      (stopPlayer p).isMoving = false ∧ (stopPlayer p).targetX = none ∧
      (stopPlayer p).targetY = none ∧ (stopPlayer p).animationFrame = 0 ∧
      (handlePlayerMove conns players pid m now).2 =
        broadcastUpdate conns "player" "moved" (.player (stopPlayer p)) none := by
  simp [handlePlayerMove, hp, applyMovement, hstop, movementBroadcasts, stopPlayer,
        alookup_ainsert_self]

theorem stop_command_resets_witness :
    alookup [("abc123def", samplePlayer)] "abc123def" = some samplePlayer ∧
      moveStop.stop = true ∧
      (alookup (handlePlayerMove [("abc123def", true)] [("abc123def", samplePlayer)]
          "abc123def" moveStop 0).1 "abc123def" = some (stopPlayer samplePlayer) ∧
        (stopPlayer samplePlayer).isMoving = false ∧
        (stopPlayer samplePlayer).targetX = none ∧
        (stopPlayer samplePlayer).targetY = none ∧
        (stopPlayer samplePlayer).animationFrame = 0 ∧
        (handlePlayerMove [("abc123def", true)] [("abc123def", samplePlayer)]
            "abc123def" moveStop 0).2 =
          broadcastUpdate [("abc123def", true)] "player" "moved"
            (.player (stopPlayer samplePlayer)) none) :=
  ⟨rfl, rfl,
   stop_command_resets [("abc123def", true)] [("abc123def", samplePlayer)]
     "abc123def" samplePlayer moveStop 0 rfl rfl⟩

/-- Claim C6: a join for an id that is already present leaves that
player's stored record (indeed the whole registry) unchanged rather than
reallocating it, and the join response still succeeds carrying the
world-state snapshot. -/
theorem rejoin_idempotent (conns : Connections) (spriteDatabase : List (String × Sprite))
    (players : List (String × Player)) (pid : String) (p : Player) (info : PlayerInfo)
    (randX randY : ℝ) (now : ℤ) (hp : alookup players pid = some p) :
    (handlePlayerJoin conns spriteDatabase players pid info randX randY now).1 = players ∧
      (handlePlayerJoin conns spriteDatabase players pid info randX randY now).2 =
        sendResponse conns pid "join" true (some (.joinData pid players)) none ++
          broadcastUpdate conns "player" "joined" (.player p) (some pid) := by
  simp [handlePlayerJoin, hp]

theorem rejoin_idempotent_witness :
    alookup [("abc123def", samplePlayer)] "abc123def" = some samplePlayer ∧
      ((handlePlayerJoin [("abc123def", true)] [] [("abc123def", samplePlayer)] "abc123def"
          ⟨some "wizard", some "MyName"⟩ 7 9 0).1 = [("abc123def", samplePlayer)] ∧
        (handlePlayerJoin [("abc123def", true)] [] [("abc123def", samplePlayer)] "abc123def"
            ⟨some "wizard", some "MyName"⟩ 7 9 0).2 =
          sendResponse [("abc123def", true)] "abc123def" "join" true
            (some (.joinData "abc123def" [("abc123def", samplePlayer)])) none ++
            broadcastUpdate [("abc123def", true)] "player" "joined"
              (.player samplePlayer) (some "abc123def")) :=
  ⟨rfl,
   rejoin_idempotent [("abc123def", true)] [] [("abc123def", samplePlayer)] "abc123def"
     samplePlayer ⟨some "wizard", some "MyName"⟩ 7 9 0 rfl⟩

/-- Claim C9 counterexample: the empty string is a sprite name absent
from the catalog, yet the failure response carries
`No sprite specified` — not `Sprite "" does not exist` — because the
source guards on JS truthiness of the name before building the named
error. -/
theorem change_sprite_empty_name_error :
    (handlePlayerChangeSprite [("abc123def", true)] [] [("abc123def", samplePlayer)]
        "abc123def" (some "")).2 =
      [("abc123def", .response ⟨"change_sprite", false, none, some "No sprite specified"⟩)] ∧
      "No sprite specified" ≠ "Sprite \"\" does not exist" := by
  exact ⟨rfl, by decide⟩

/-- Claim C9 (amended): a `change_sprite` request naming a *non-empty*
sprite name absent from the catalog fails with
`Sprite "x" does not exist` and leaves the registry untouched; an empty
(falsy) name instead fails with `No sprite specified`, equally without
touching the registry. -/
theorem change_sprite_unknown_error (conns : Connections)
    (spriteDatabase : List (String × Sprite)) (players : List (String × Player))
    (pid : String) (p : Player) (s : String)
    (hp : alookup players pid = some p) (hs : s ≠ "")
    (habs : alookup spriteDatabase s = none) :
    (handlePlayerChangeSprite conns spriteDatabase players pid (some s)).1 = players ∧
      (handlePlayerChangeSprite conns spriteDatabase players pid (some s)).2 =
        sendResponse conns pid "change_sprite" false none
          (some ("Sprite \"" ++ s ++ "\" does not exist")) ∧
      (handlePlayerChangeSprite conns spriteDatabase players pid (some "")).1 = players ∧
      (handlePlayerChangeSprite conns spriteDatabase players pid (some "")).2 =
        sendResponse conns pid "change_sprite" false none (some "No sprite specified") := by
  refine ⟨?_, ?_, ?_, ?_⟩ <;> simp [handlePlayerChangeSprite, hp, hs, habs]

theorem change_sprite_unknown_error_witness :
    alookup [("abc123def", samplePlayer)] "abc123def" = some samplePlayer ∧
      "ninja" ≠ "" ∧
      alookup ([] : List (String × Sprite)) "ninja" = none ∧
      ((handlePlayerChangeSprite [("abc123def", true)] [] [("abc123def", samplePlayer)]
          "abc123def" (some "ninja")).1 = [("abc123def", samplePlayer)] ∧
        (handlePlayerChangeSprite [("abc123def", true)] [] [("abc123def", samplePlayer)]
            "abc123def" (some "ninja")).2 =
          sendResponse [("abc123def", true)] "abc123def" "change_sprite" false none
            (some ("Sprite \"" ++ "ninja" ++ "\" does not exist")) ∧
        (handlePlayerChangeSprite [("abc123def", true)] [] [("abc123def", samplePlayer)]
            "abc123def" (some "")).1 = [("abc123def", samplePlayer)] ∧
        (handlePlayerChangeSprite [("abc123def", true)] [] [("abc123def", samplePlayer)]
            "abc123def" (some "")).2 =
          sendResponse [("abc123def", true)] "abc123def" "change_sprite" false none
            (some "No sprite specified")) :=
  ⟨rfl, by decide, rfl,
   change_sprite_unknown_error [("abc123def", true)] [] [("abc123def", samplePlayer)]
     "abc123def" samplePlayer "ninja" rfl (by decide) rfl⟩

/-- Claim C2 counterexample: with two open sessions `abc123def` (the
sender, at (100,100)) and `B`, the `player moved` broadcast produced by
`move {direction:"up"}` is delivered to *both* — the sending session is
among the recipients, because `handlePlayerMove` calls
`broadcastUpdate` without an `excludePlayerId`. -/
theorem move_broadcast_includes_sender :
    ((handlePlayerMove [("abc123def", true), ("B", true)] [("abc123def", samplePlayer)]
          "abc123def" moveUp 0).2.map Prod.fst) = ["abc123def", "B"] := by
  rfl

/-- Claim C2 (amended): a player at (100,100) processing
`move {direction:"up"}` ends at (100,85), facing north, with
`isMoving = true`, and the resulting `player moved` broadcast is
delivered to *every* open session — the sender included (the source
excludes nobody). -/
theorem move_up_scenario (conns : Connections) (players : List (String × Player))
    (pid : String) (p : Player) (now : ℤ)
    (hp : alookup players pid = some p) (hx : p.x = 100) (hy : p.y = 100) :
    alookup (handlePlayerMove conns players pid moveUp now).1 pid =
        some (directionStep p "up" now) ∧
      (directionStep p "up" now).x = 100 ∧
      (directionStep p "up" now).y = 85 ∧
      (directionStep p "up" now).facing = .north ∧
      (directionStep p "up" now).isMoving = true ∧
      (handlePlayerMove conns players pid moveUp now).2 =
        (conns.filter fun c => c.2).map
          (fun c => (c.1, Msg.update ⟨"player", "moved",
            .player (directionStep p "up" now)⟩)) := by
  have hmove : applyMovement p ⟨false, some "up", none, none⟩ now =
      directionStep p "up" now := by
    simp [applyMovement]
  refine ⟨?_, ?_, ?_, ?_, ?_, ?_⟩
  · simp [handlePlayerMove, hp, moveUp, hmove, alookup_ainsert_self]
  · simp [directionStep, directionApply, hx]
  · simp [directionStep, directionApply, hy]
    rw [max_eq_right (by norm_num : (0:ℝ) ≤ 100 - 15)]
    norm_num
  · simp [directionStep, directionApply]
  · simp [directionStep, directionApply]
  · simp [handlePlayerMove, hp, hmove, moveUp, movementBroadcasts, broadcastUpdate,
      broadcast]

theorem move_up_scenario_witness :
    alookup [("abc123def", samplePlayer)] "abc123def" = some samplePlayer ∧
      samplePlayer.x = 100 ∧ samplePlayer.y = 100 ∧
      (alookup (handlePlayerMove [("abc123def", true), ("B", true)]
            [("abc123def", samplePlayer)] "abc123def" moveUp 0).1 "abc123def" =
          some (directionStep samplePlayer "up" 0) ∧
        (directionStep samplePlayer "up" 0).x = 100 ∧
        (directionStep samplePlayer "up" 0).y = 85 ∧
        (directionStep samplePlayer "up" 0).facing = .north ∧
        (directionStep samplePlayer "up" 0).isMoving = true ∧
        (handlePlayerMove [("abc123def", true), ("B", true)]
            [("abc123def", samplePlayer)] "abc123def" moveUp 0).2 =
          (([("abc123def", true), ("B", true)] : Connections).filter fun c => c.2).map
            (fun c => (c.1, Msg.update ⟨"player", "moved",
              .player (directionStep samplePlayer "up" 0)⟩))) :=
  ⟨rfl, rfl, rfl,
   move_up_scenario [("abc123def", true), ("B", true)] [("abc123def", samplePlayer)]
     "abc123def" samplePlayer 0 rfl rfl rfl⟩

theorem addCustomSprite_ok (spriteDatabase : List (String × Sprite)) (store : Store)
    (spriteName : String) (imageData : List (String × List (Option String))) (now : ℤ)
    (db' : List (String × Sprite)) (s : Sprite)
    (h : (addCustomSprite spriteDatabase store spriteName imageData now).2 = .ok (db', s)) :
    db' = ainsert spriteDatabase spriteName s ∧ s.frames.west = s.frames.east ∧
      s.custom = true := by
  unfold addCustomSprite at h
  rcases huf : uploadFrames spriteName imageData store ⟨[], [], [], []⟩ with ⟨st, ex⟩
  rw [huf] at h
  cases ex with
  | error e => simp at h
  | ok fr =>
    simp only [Except.ok.injEq] at h
    obtain ⟨hdb, hs⟩ := Prod.mk.injEq .. ▸ h
    subst hs
    exact ⟨hdb.symm, rfl, rfl⟩

theorem applyCatalogOp_upload_wf (spriteDatabase : List (String × Sprite))
    (name : String) (imageData : List (String × List (Option String))) (now : ℤ)
    (h : CatalogWellFormed spriteDatabase) :
    CatalogWellFormed (applyCatalogOp spriteDatabase (.upload name imageData now)) := by
  cases hres : (addCustomSprite spriteDatabase [] name imageData now).2 with
  | error e => simpa [applyCatalogOp, hres] using h
  | ok pr =>
    obtain ⟨db', s⟩ := pr
    obtain ⟨hdb, hwest, hcustom⟩ :=
      addCustomSprite_ok spriteDatabase [] name imageData now db' s hres
    simp only [applyCatalogOp, hres]
    subst hdb
    intro n t hl
    rw [alookup_ainsert] at hl
    by_cases hn : name = n
    · rw [if_pos hn] at hl
      have ht : t = s := (Option.some.inj hl).symm
      subst ht
      exact ⟨hwest, fun hc => absurd hc (by simp [hcustom])⟩
    · rw [if_neg hn] at hl
      exact h n t hl

theorem scanSprite_eq (spriteDatabase : List (String × Sprite)) (f : SpriteFolder) :
    scanSprite spriteDatabase f = spriteDatabase ∨
      (scanFrames f "north" ≠ [] ∧ scanFrames f "south" ≠ [] ∧ scanFrames f "east" ≠ [] ∧
        scanSprite spriteDatabase f =
          ainsert spriteDatabase f.name
            ⟨f.name, ⟨scanFrames f "north", scanFrames f "south", scanFrames f "east",
              scanFrames f "east"⟩, f.mtime, false⟩) := by
  unfold scanSprite
  dsimp only
  split
  · split
    case isTrue h2 => exact Or.inr ⟨h2.1, h2.2.1, h2.2.2, rfl⟩
    case isFalse => exact Or.inl rfl
  · exact Or.inl rfl

theorem scanSprite_wf (spriteDatabase : List (String × Sprite)) (f : SpriteFolder)
    (h : CatalogWellFormed spriteDatabase) : CatalogWellFormed (scanSprite spriteDatabase f) := by
  rcases scanSprite_eq spriteDatabase f with heq | ⟨hn, hs, he, heq⟩
  · rw [heq]; exact h
  · rw [heq]
    intro n t hl
    rw [alookup_ainsert] at hl
    by_cases hfn : f.name = n
    · rw [if_pos hfn] at hl
      have ht : t = ⟨f.name, ⟨scanFrames f "north", scanFrames f "south",
          scanFrames f "east", scanFrames f "east"⟩, f.mtime, false⟩ :=
        (Option.some.inj hl).symm
      subst ht
      exact ⟨rfl, fun _ => ⟨hn, hs, he⟩⟩
    · rw [if_neg hfn] at hl
      exact h n t hl

theorem scanSpritesDirectory_wf (folders : List SpriteFolder) :
    ∀ spriteDatabase, CatalogWellFormed spriteDatabase →
      CatalogWellFormed (scanSpritesDirectory spriteDatabase folders) := by
  induction folders with
  | nil => intro db h; exact h
  | cons f rest ih => intro db h; exact ih (scanSprite db f) (scanSprite_wf db f h)

/-- Claim C1 counterexample: the single-operation sequence consisting of
the upload `upload("ghost", {})` — whose required directions are
entirely absent — leaves the catalog containing a `ghost` entry whose
north frame list is empty, violating the claimed membership invariant. -/
theorem upload_missing_directions_registers :
    alookup ([CatalogOp.upload "ghost" [] 0].foldl applyCatalogOp []) "ghost" =
      some ⟨"ghost", ⟨[], [], [], []⟩, 0, true⟩ ∧
      (⟨"ghost", ⟨[], [], [], []⟩, 0, true⟩ : Sprite).frames.north = [] :=
  ⟨rfl, rfl⟩

/-- Claim C1 (amended): after any sequence of directory reconciliations
and uploads starting from the empty catalog, every entry's west frame
list equals its east frame list, and every entry registered by the
directory scan (`custom = false`) has at least one frame for each of
north, south and east. Entries created by `addCustomSprite` (uploads,
`custom = true`) are registered unconditionally and may lack the
required directions. -/
theorem catalog_registration_invariant (ops : List CatalogOp) :
    CatalogWellFormed (ops.foldl applyCatalogOp []) := by
  have hstep : ∀ db op, CatalogWellFormed db → CatalogWellFormed (applyCatalogOp db op) := by
    intro db op h
    cases op with
    | scan folders => exact scanSpritesDirectory_wf folders db h
    | upload name imageData now => exact applyCatalogOp_upload_wf db name imageData now h
  have hgen : ∀ (l : List CatalogOp) (db), CatalogWellFormed db →
      CatalogWellFormed (l.foldl applyCatalogOp db) := by
    intro l
    induction l with
    | nil => intro db h; exact h
    | cons op rest ih => intro db h; exact ih (applyCatalogOp db op) (hstep db op h)
  refine hgen ops [] ?_
  intro n s hl
  simp [alookup] at hl

theorem catalog_registration_invariant_witness :
    alookup (heroOps.foldl applyCatalogOp []) "hero" = some heroSprite ∧
      (heroSprite.frames.west = heroSprite.frames.east ∧
        (heroSprite.custom = false →
          heroSprite.frames.north ≠ [] ∧ heroSprite.frames.south ≠ [] ∧
            heroSprite.frames.east ≠ [])) :=
  ⟨rfl, catalog_registration_invariant heroOps "hero" heroSprite rfl⟩

theorem writeFrames_error (spriteName dir : String) (arr : List (Option String))
    (hn : none ∈ arr) :
    ∀ (i : ℕ) (store : Store),
      (writeFrames spriteName dir arr i store).2 = .error "frame payload is not a string" := by
  induction arr with
  | nil => cases hn
  | cons a rest ih =>
    intro i store
    cases a with
    | none => rfl
    | some s =>
      have hr : none ∈ rest := by simpa using hn
      have h2 := ih hr (i + 1) (store ++ [(framePath spriteName dir (i + 1), s)])
      simp only [writeFrames, decodeFrame]
      rcases hw : writeFrames spriteName dir rest (i + 1)
          (store ++ [(framePath spriteName dir (i + 1), s)]) with ⟨st2, ex⟩
      rw [hw] at h2
      cases ex with
      | error e2 => exact h2
      | ok p2 => simp at h2

theorem writeFrames_ok (spriteName dir : String) (arr : List (Option String))
    (hn : none ∉ arr) :
    ∀ (i : ℕ) (store : Store), ∃ paths,
      (writeFrames spriteName dir arr i store).2 = .ok paths := by
  induction arr with
  | nil => exact fun i store => ⟨[], rfl⟩
  | cons a rest ih =>
    intro i store
    cases a with
    | none => simp at hn
    | some s =>
      have hr : none ∉ rest := fun h => hn (List.mem_cons_of_mem _ h)
      obtain ⟨paths, hp⟩ := ih hr (i + 1) (store ++ [(framePath spriteName dir (i + 1), s)])
      simp only [writeFrames, decodeFrame]
      rcases hw : writeFrames spriteName dir rest (i + 1)
          (store ++ [(framePath spriteName dir (i + 1), s)]) with ⟨st2, ex⟩
      rw [hw] at hp
      cases ex with
      | error e2 => simp at hp
      | ok p2 => exact ⟨framePath spriteName dir (i + 1) :: p2, rfl⟩

theorem uploadFrames_error (spriteName : String)
    (imageData : List (String × List (Option String)))
    (hex : ∃ dir arr, (dir, arr) ∈ imageData ∧ dir ∈ requiredDirections ∧ none ∈ arr) :
    ∀ (store : Store) (fr : Frames),
      (uploadFrames spriteName imageData store fr).2 =
        .error "frame payload is not a string" := by
  induction imageData with
  | nil => obtain ⟨d, a, hm, _, _⟩ := hex; cases hm
  | cons e rest ih =>
    obtain ⟨d0, a0⟩ := e
    intro store fr
    by_cases hreq : d0 ∈ requiredDirections
    · simp only [uploadFrames, if_pos hreq]
      by_cases hn : none ∈ a0
      · have hw := writeFrames_error spriteName d0 a0 hn 0 store
        rcases hww : writeFrames spriteName d0 a0 0 store with ⟨st2, ex⟩
        rw [hww] at hw
        cases ex with
        | error e2 => simpa using hw
        | ok p2 => simp at hw
      · have hex' : ∃ dir arr, (dir, arr) ∈ rest ∧ dir ∈ requiredDirections ∧
            none ∈ arr := by
          obtain ⟨d, a, hm, hd, ha⟩ := hex
          rcases List.mem_cons.mp hm with heq | hm'
          · cases heq; exact absurd ha hn
          · exact ⟨d, a, hm', hd, ha⟩
        obtain ⟨paths, hp⟩ := writeFrames_ok spriteName d0 a0 hn 0 store
        rcases hww : writeFrames spriteName d0 a0 0 store with ⟨st2, ex⟩
        rw [hww] at hp
        cases ex with
        | error e2 => simp at hp
        | ok p2 => exact ih hex' st2 (framesAppend fr d0 p2)
    · simp only [uploadFrames, if_neg hreq]
      have hex' : ∃ dir arr, (dir, arr) ∈ rest ∧ dir ∈ requiredDirections ∧ none ∈ arr := by
        obtain ⟨d, a, hm, hd, ha⟩ := hex
        rcases List.mem_cons.mp hm with heq | hm'
        · cases heq; exact absurd hd hreq
        · exact ⟨d, a, hm', hd, ha⟩
      exact ih hex' store fr

/-- Claim C7 counterexample: an upload whose required directions are
entirely absent (`imageData = {}`) does *not* fail — `addCustomSprite`
registers a catalog entry with all-empty frame lists and the handler
answers with a success response and the `sprite added` broadcast. -/
theorem upload_empty_input_succeeds :
    (addCustomSprite [] [] "ghost" [] 0).2 =
      .ok ([("ghost", ⟨"ghost", ⟨[], [], [], []⟩, 0, true⟩)],
        ⟨"ghost", ⟨[], [], [], []⟩, 0, true⟩) ∧
      (handleSpriteUpload [("u", true)] [] [] "u" "ghost" [] 0).1 =
        [("ghost", ⟨"ghost", ⟨[], [], [], []⟩, 0, true⟩)] ∧
      (handleSpriteUpload [("u", true)] [] [] "u" "ghost" [] 0).2.2 =
        broadcastUpdate [("u", true)] "sprite" "added"
            (.sprite ⟨"ghost", ⟨[], [], [], []⟩, 0, true⟩) none ++
          sendResponse [("u", true)] "u" "upload" true
            (some (.sprite ⟨"ghost", ⟨[], [], [], []⟩, 0, true⟩)) none :=
  ⟨rfl, rfl, rfl⟩

/-- Claim C7 (amended): an upload in which decoding some frame payload
of a required direction fails is rejected with a failure response and
creates no catalog entry — the sprite database is left exactly as it
was (frames written before the failing one do remain in the asset
store). An upload whose required directions are entirely absent,
however, does not fail; it registers an entry with empty frame lists. -/
theorem upload_decode_failure_atomic (conns : Connections)
    (spriteDatabase : List (String × Sprite)) (store : Store) (pid spriteName : String)
    (imageData : List (String × List (Option String))) (now : ℤ)
    (dir : String) (arr : List (Option String))
    (hmem : (dir, arr) ∈ imageData) (hdir : dir ∈ requiredDirections) (hfail : none ∈ arr) :
    (handleSpriteUpload conns spriteDatabase store pid spriteName imageData now).1 =
        spriteDatabase ∧
      (handleSpriteUpload conns spriteDatabase store pid spriteName imageData now).2.2 =
        sendResponse conns pid "upload" false none
          (some "frame payload is not a string") := by
  have hu := uploadFrames_error spriteName imageData ⟨dir, arr, hmem, hdir, hfail⟩
    store ⟨[], [], [], []⟩
  unfold handleSpriteUpload addCustomSprite
  rcases huf : uploadFrames spriteName imageData store ⟨[], [], [], []⟩ with ⟨st2, ex⟩
  rw [huf] at hu
  cases ex with
  | error e2 =>
    have he : e2 = "frame payload is not a string" := by
      simpa using hu
    subst he
    exact ⟨rfl, rfl⟩
  | ok fr => simp at hu

theorem upload_decode_failure_atomic_witness :
    (("north", [(none : Option String)]) ∈ [("north", [(none : Option String)])]) ∧
      "north" ∈ requiredDirections ∧
      (none : Option String) ∈ [(none : Option String)] ∧
      ((handleSpriteUpload [("u", true)] [] [] "u" "bad"
          [("north", [(none : Option String)])] 0).1 = [] ∧
        (handleSpriteUpload [("u", true)] [] [] "u" "bad"
            [("north", [(none : Option String)])] 0).2.2 =
          sendResponse [("u", true)] "u" "upload" false none
            (some "frame payload is not a string")) :=
  ⟨List.mem_singleton.mpr rfl, by decide, List.mem_singleton.mpr rfl,
   upload_decode_failure_atomic [("u", true)] [] [] "u" "bad"
     [("north", [(none : Option String)])] 0 "north" [(none : Option String)]
     (List.mem_singleton.mpr rfl) (by decide) (List.mem_singleton.mpr rfl)⟩

/-- Claim C8 counterexample: a tick over a registry holding only a
keyboard-moved player (`isMoving = true`, no target) broadcasts
*nothing*, because no player set `hasUpdates` — even though the claim
requires a `player moved` update for every player with `isMoving`
true. -/
theorem tick_no_broadcast_without_updates :
    (gameTick [("walker", true)] [("walker", walkerPlayer)] 0).2 = [] ∧
      (gameTick [("walker", true)] [("walker", walkerPlayer)] 0).1 =
        [("walker", walkerPlayer)] ∧
      walkerPlayer.isMoving = true ∧ walkerPlayer.targetX = none :=
  ⟨rfl, rfl, rfl, rfl⟩

/-- Claim C8 (amended): on a tick in which `hasUpdates` was set (some
player had a pursuit target, or some idle player's animation advanced),
a `player moved` update is broadcast to every open connection for every
post-processing player whose target is still set or whose `isMoving` is
true — including players whose state did not change this tick. On a
tick where no player set `hasUpdates`, nothing is broadcast at all. -/
theorem tick_broadcast_on_updates (conns : Connections) (players : List (String × Player))
    (now : ℤ) (pid cid : String) (q : Player)
    (hHas : tickHasUpdates players now = true)
    (hq : (pid, q) ∈ (gameTick conns players now).1)
    (hcond : (q.targetX.isSome || q.targetY.isSome || q.isMoving) = true)
    (hc : (cid, true) ∈ conns) :
    (cid, Msg.update ⟨"player", "moved", .player q⟩) ∈ (gameTick conns players now).2 := by
  simp only [gameTick, hHas, if_pos] at hq ⊢
  refine List.mem_flatMap.mpr ⟨(pid, q), List.mem_filter.mpr ⟨hq, hcond⟩, ?_⟩
  simp only [broadcastUpdate, broadcast]
  refine List.mem_map.mpr ⟨(cid, true), List.mem_filter.mpr ⟨hc, ?_⟩, rfl⟩
  simp

theorem tick_broadcast_on_updates_witness :
    tickHasUpdates [("idler", idlerPlayer), ("walker", walkerPlayer)] 2000 = true ∧
      ("walker", walkerPlayer) ∈
        (gameTick [("idler", true), ("walker", true)]
          [("idler", idlerPlayer), ("walker", walkerPlayer)] 2000).1 ∧
      (walkerPlayer.targetX.isSome || walkerPlayer.targetY.isSome ||
        walkerPlayer.isMoving) = true ∧
      ("walker", true) ∈ ([("idler", true), ("walker", true)] : Connections) ∧
      ("walker", Msg.update ⟨"player", "moved", .player walkerPlayer⟩) ∈
        (gameTick [("idler", true), ("walker", true)]
          [("idler", idlerPlayer), ("walker", walkerPlayer)] 2000).2 :=
  ⟨rfl, .tail _ (.head _), rfl, .tail _ (.head _),
   tick_broadcast_on_updates [("idler", true), ("walker", true)]
     [("idler", idlerPlayer), ("walker", walkerPlayer)] 2000 "walker" "walker"
     walkerPlayer rfl (.tail _ (.head _)) rfl (.tail _ (.head _))⟩

theorem movePlayerTowards_reached (p : Player) (tx ty s : ℝ)
    (hle : distance p.x p.y tx ty ≤ s) :
    movePlayerTowards p tx ty s = ({ p with x := tx, y := ty, isMoving := false }, true) := by
  unfold movePlayerTowards
  dsimp only
  rw [if_pos hle]

theorem movePlayerTowards_not_reached (p : Player) (tx ty s : ℝ)
    (hgt : ¬distance p.x p.y tx ty ≤ s) :
    (movePlayerTowards p tx ty s).2 = false ∧
      (movePlayerTowards p tx ty s).1.x =
        clamp (p.x + (tx - p.x) * (s / distance p.x p.y tx ty)) 0 (worldWidth - 50) ∧
      (movePlayerTowards p tx ty s).1.y =
        clamp (p.y + (ty - p.y) * (s / distance p.x p.y tx ty)) 0 (worldHeight - 50) ∧
      (movePlayerTowards p tx ty s).1.targetX = p.targetX ∧
      (movePlayerTowards p tx ty s).1.targetY = p.targetY ∧
      (movePlayerTowards p tx ty s).1.isMoving = true ∧
      (movePlayerTowards p tx ty s).1.animationFrame = p.animationFrame ∧
      (movePlayerTowards p tx ty s).1.lastAnimationUpdate = p.lastAnimationUpdate := by
  unfold movePlayerTowards
  dsimp only
  rw [if_neg hgt]
  exact ⟨rfl, rfl, rfl, rfl, rfl, rfl, rfl, rfl⟩

theorem tickPlayer_snap (p : Player) (now : ℤ) (tx ty : ℝ)
    (hX : p.targetX = some tx) (hY : p.targetY = some ty)
    (hle : distance p.x p.y tx ty ≤ 3) :
    tickPlayer p now = { p with x := tx, y := ty, targetX := none, targetY := none,
                                isMoving := false, animationFrame := 0 } := by
  unfold tickPlayer
  rw [hX, hY]
  dsimp only
  rw [movePlayerTowards_reached p tx ty 3 hle]
  rfl

theorem tickPlayer_pursue (p : Player) (now : ℤ) (tx ty : ℝ)
    (hX : p.targetX = some tx) (hY : p.targetY = some ty)
    (hgt : ¬distance p.x p.y tx ty ≤ 3) :
    (tickPlayer p now).x =
        clamp (p.x + (tx - p.x) * (3 / distance p.x p.y tx ty)) 0 (worldWidth - 50) ∧
      (tickPlayer p now).y =
        clamp (p.y + (ty - p.y) * (3 / distance p.x p.y tx ty)) 0 (worldHeight - 50) ∧
      (tickPlayer p now).targetX = some tx ∧
      (tickPlayer p now).targetY = some ty ∧
      (tickPlayer p now).isMoving = true := by
  obtain ⟨h2, hx, hy, htx, hty, hmov, _, _⟩ := movePlayerTowards_not_reached p tx ty 3 hgt
  have hred : tickPlayer p now = animAdvance (movePlayerTowards p tx ty 3).1 now 200 := by
    unfold tickPlayer
    rw [hX, hY]
    dsimp only
    rw [h2]
    rfl
  rw [hred, animAdvance_x, animAdvance_y, animAdvance_targetX, animAdvance_targetY,
    animAdvance_isMoving]
  exact ⟨hx, hy, hX ▸ htx, hY ▸ hty, hmov⟩

theorem tickPlayer_no_target (p : Player) (now : ℤ)
    (h : p.targetX = none ∨ p.targetY = none) :
    (tickPlayer p now).x = p.x ∧ (tickPlayer p now).y = p.y ∧
      (tickPlayer p now).targetX = p.targetX ∧ (tickPlayer p now).targetY = p.targetY ∧
      (tickPlayer p now).isMoving = p.isMoving := by
  have hred : tickPlayer p now =
      if p.isMoving = false then animAdvance p now 1000 else p := by
    rcases h with hX | hY
    · unfold tickPlayer
      rw [hX]
    · cases hX2 : p.targetX with
      | none => unfold tickPlayer; rw [hX2]
      | some tx => unfold tickPlayer; rw [hX2, hY]
  rw [hred]
  split <;> simp

theorem clamp_mem (v lo hi : ℝ) (h : lo ≤ hi) : lo ≤ clamp v lo hi ∧ clamp v lo hi ≤ hi :=
  ⟨le_min (le_max_right v lo) h, min_le_right _ _⟩

theorem tickPlayer_bounds (p : Player) (now : ℤ) (h : PlayerInBounds p) :
    PlayerInBounds (tickPlayer p now) := by
  obtain ⟨⟨hx0, hx1, hy0, hy1⟩, htx, hty⟩ := h
  have hWH : worldWidth - 50 = (4046 : ℝ) := by norm_num [worldWidth]
  have hHH : worldHeight - 50 = (4046 : ℝ) := by norm_num [worldHeight]
  have hfall : ∀ hor : p.targetX = none ∨ p.targetY = none,
      PlayerInBounds (tickPlayer p now) := by
    intro hor
    obtain ⟨ex, ey, etx, ety, _⟩ := tickPlayer_no_target p now hor
    refine ⟨⟨?_, ?_, ?_, ?_⟩, ?_, ?_⟩
    · rw [ex]; exact hx0
    · rw [ex]; exact hx1
    · rw [ey]; exact hy0
    · rw [ey]; exact hy1
    · intro t ht; rw [etx] at ht; exact htx t ht
    · intro t ht; rw [ety] at ht; exact hty t ht
  cases hX : p.targetX with
  | none => exact hfall (Or.inl hX)
  | some tx =>
    cases hY : p.targetY with
    | none => exact hfall (Or.inr hY)
    | some ty =>
      by_cases hle : distance p.x p.y tx ty ≤ 3
      · rw [tickPlayer_snap p now tx ty hX hY hle]
        obtain ⟨htx0, htx1⟩ := htx tx hX
        obtain ⟨hty0, hty1⟩ := hty ty hY
        exact ⟨⟨htx0, htx1, hty0, hty1⟩, by simp, by simp⟩
      · obtain ⟨ex, ey, etx, ety, _⟩ := tickPlayer_pursue p now tx ty hX hY hle
        refine ⟨⟨?_, ?_, ?_, ?_⟩, ?_, ?_⟩
        · rw [ex]; exact (clamp_mem _ _ _ (by norm_num [worldWidth])).1
        · rw [ex, ← hWH]; exact (clamp_mem _ _ _ (by norm_num [worldWidth])).2
        · rw [ey]; exact (clamp_mem _ _ _ (by norm_num [worldHeight])).1
        · rw [ey, ← hHH]; exact (clamp_mem _ _ _ (by norm_num [worldHeight])).2
        · intro t ht
          rw [etx] at ht
          obtain rfl := (Option.some.inj ht).symm
          exact htx t hX
        · intro t ht
          rw [ety] at ht
          obtain rfl := (Option.some.inj ht).symm
          exact hty t hY

theorem stopPlayer_bounds (p : Player) (h : PlayerInBounds p) :
    PlayerInBounds (stopPlayer p) := by
  obtain ⟨hpos, _, _⟩ := h
  exact ⟨hpos, by simp [stopPlayer], by simp [stopPlayer]⟩

theorem applyClick_bounds (p : Player) (m : Movement) (h : PlayerInBounds p) :
    PlayerInBounds (applyClick p m) := by
  obtain ⟨hpos, htx, hty⟩ := h
  have hWH : worldWidth - 50 = (4046 : ℝ) := by norm_num [worldWidth]
  have hHH : worldHeight - 50 = (4046 : ℝ) := by norm_num [worldHeight]
  unfold applyClick
  cases hmx : m.x with
  | none => exact ⟨hpos, htx, hty⟩
  | some mx =>
    cases hmy : m.y with
    | none => exact ⟨hpos, htx, hty⟩
    | some my =>
      refine ⟨hpos, ?_, ?_⟩
      · intro t ht
        obtain rfl := Option.some.inj ht
        rw [← hWH]
        exact clamp_mem _ _ _ (by norm_num [worldWidth])
      · intro t ht
        obtain rfl := Option.some.inj ht
        rw [← hHH]
        exact clamp_mem _ _ _ (by norm_num [worldHeight])

theorem directionStep_bounds (p : Player) (d : String) (now : ℤ)
    (h : PlayerInBounds p) : PlayerInBounds (directionStep p d now) := by
  obtain ⟨⟨hx0, hx1, hy0, hy1⟩, _, _⟩ := h
  refine ⟨?_, ?_, ?_⟩
  · show PosInBounds (directionStep p d now).x (directionStep p d now).y
    rw [directionStep, animAdvance_x, animAdvance_y]
    unfold directionApply
    dsimp only
    split_ifs <;>
      refine ⟨?_, ?_, ?_, ?_⟩ <;>
      first
        | exact hx0
        | exact hx1
        | exact hy0
        | exact hy1
        | exact le_max_left _ _
        | exact max_le (by norm_num) (by linarith)
        | exact le_min (by norm_num [worldWidth, worldHeight]) (by linarith)
        | exact le_trans (min_le_left _ _) (by norm_num [worldWidth, worldHeight])
  · intro t ht
    rw [directionStep, animAdvance_targetX] at ht
    simp [directionApply] at ht
  · intro t ht
    rw [directionStep, animAdvance_targetY] at ht
    simp [directionApply] at ht

/-- Claim C5: starting from a player whose position (and any stored
target) is within `[0, 4046]` in both coordinates, every movement
command — direction, click-to-move or stop — and every tick-driven
pursuit step yields a position within the same bounds, and any stored
target stays within them too. -/
theorem bounds_invariant (p : Player) (s : PlayerStep) (h : PlayerInBounds p) :
    PlayerInBounds (stepPlayer p s) := by
  cases s with
  | tick now => exact tickPlayer_bounds p now h
  | command m now =>
    show PlayerInBounds (applyMovement p m now)
    unfold applyMovement
    by_cases hstop : m.stop
    · rw [if_pos hstop]
      exact stopPlayer_bounds p h
    · rw [if_neg hstop]
      cases m.direction with
      | none => exact applyClick_bounds p m h
      | some d =>
        dsimp only
        by_cases hd : d = ""
        · rw [if_pos hd]
          exact applyClick_bounds p m h
        · rw [if_neg hd]
          exact directionStep_bounds p d now h

theorem bounds_invariant_witness :
    PlayerInBounds samplePlayer ∧ PlayerInBounds (stepPlayer samplePlayer (.tick 0)) :=
  have hb : PlayerInBounds samplePlayer := by
    refine ⟨⟨?_, ?_, ?_, ?_⟩, ?_, ?_⟩ <;> simp [samplePlayer, PosInBounds] <;> norm_num
  ⟨hb, bounds_invariant samplePlayer (.tick 0) hb⟩

theorem distance_nonneg (x1 y1 x2 y2 : ℝ) : 0 ≤ distance x1 y1 x2 y2 :=
  Real.sqrt_nonneg _

theorem distance_self (x y : ℝ) : distance x y x y = 0 := by
  unfold distance
  norm_num

theorem distance_eq_zero (x1 y1 x2 y2 : ℝ) (h : distance x1 y1 x2 y2 = 0) :
    x2 = x1 ∧ y2 = y1 := by
  unfold distance at h
  have hle := Real.sqrt_eq_zero'.mp h
  have h1 : (x2 - x1) ^ 2 = 0 := by nlinarith [sq_nonneg (x2 - x1), sq_nonneg (y2 - y1)]
  have h2 : (y2 - y1) ^ 2 = 0 := by nlinarith [sq_nonneg (x2 - x1), sq_nonneg (y2 - y1)]
  constructor
  · have := pow_eq_zero_iff (two_ne_zero) |>.mp h1
    linarith
  · have := pow_eq_zero_iff (two_ne_zero) |>.mp h2
    linarith

theorem distance_step (x y tx ty : ℝ) (hd : 3 < distance x y tx ty) :
    distance (x + (tx - x) * (3 / distance x y tx ty))
      (y + (ty - y) * (3 / distance x y tx ty)) tx ty = distance x y tx ty - 3 := by
  have hd0 : 0 < distance x y tx ty := by linarith
  have hdne : distance x y tx ty ≠ 0 := ne_of_gt hd0
  have hS : distance x y tx ty ^ 2 = (tx - x) ^ 2 + (ty - y) ^ 2 :=
    Real.sq_sqrt (by positivity)
  have key : (tx - (x + (tx - x) * (3 / distance x y tx ty))) ^ 2 +
      (ty - (y + (ty - y) * (3 / distance x y tx ty))) ^ 2 =
      (distance x y tx ty - 3) ^ 2 := by
    have expand : (tx - (x + (tx - x) * (3 / distance x y tx ty))) ^ 2 +
        (ty - (y + (ty - y) * (3 / distance x y tx ty))) ^ 2 =
        ((tx - x) ^ 2 + (ty - y) ^ 2) * (1 - 3 / distance x y tx ty) ^ 2 := by
      ring
    rw [expand, ← hS, ← mul_pow]
    congr 1
    field_simp
  show Real.sqrt (_ + _) = _
  rw [key]
  exact Real.sqrt_sq (by linarith)

theorem clamp_eq_self (v lo hi : ℝ) (h0 : lo ≤ v) (h1 : v ≤ hi) : clamp v lo hi = v := by
  unfold clamp
  rw [max_eq_left h0, min_eq_left h1]

theorem convex_bound (a b M r : ℝ) (ha0 : 0 ≤ a) (haM : a ≤ M) (hb0 : 0 ≤ b) (hbM : b ≤ M)
    (hr0 : 0 ≤ r) (hr1 : r ≤ 1) : 0 ≤ a + (b - a) * r ∧ a + (b - a) * r ≤ M := by
  constructor <;> nlinarith

/-- One pursuit tick on an in-bounds player with an in-bounds target out
of snapping range: the clamps are identities, the position advances by
exactly 3 along the direction vector, the target survives, and the
distance to the target shrinks by exactly 3. -/
theorem tickPlayer_pursue_exact (p : Player) (now : ℤ) (tx ty : ℝ)
    (hX : p.targetX = some tx) (hY : p.targetY = some ty)
    (hp : PosInBounds p.x p.y) (ht : PosInBounds tx ty)
    (hgt : ¬distance p.x p.y tx ty ≤ 3) :
    (tickPlayer p now).x = p.x + (tx - p.x) * (3 / distance p.x p.y tx ty) ∧
      (tickPlayer p now).y = p.y + (ty - p.y) * (3 / distance p.x p.y tx ty) ∧
      (tickPlayer p now).targetX = some tx ∧ (tickPlayer p now).targetY = some ty ∧
      PosInBounds (tickPlayer p now).x (tickPlayer p now).y ∧
      distance (tickPlayer p now).x (tickPlayer p now).y tx ty =
        distance p.x p.y tx ty - 3 := by
  obtain ⟨ex, ey, etx, ety, _⟩ := tickPlayer_pursue p now tx ty hX hY hgt
  have hd3 : 3 < distance p.x p.y tx ty := not_le.mp hgt
  have hd0 : 0 < distance p.x p.y tx ty := by linarith
  have hr0 : 0 ≤ 3 / distance p.x p.y tx ty := by positivity
  have hr1 : 3 / distance p.x p.y tx ty ≤ 1 := by
    rw [div_le_one hd0]
    linarith
  obtain ⟨hx0, hx1, hy0, hy1⟩ := hp
  obtain ⟨htx0, htx1, hty0, hty1⟩ := ht
  have hbx := convex_bound p.x tx 4046 (3 / distance p.x p.y tx ty) hx0 hx1 htx0 htx1 hr0 hr1
  have hby := convex_bound p.y ty 4046 (3 / distance p.x p.y tx ty) hy0 hy1 hty0 hty1 hr0 hr1
  have hWH : worldWidth - 50 = (4046 : ℝ) := by norm_num [worldWidth]
  have hHH : worldHeight - 50 = (4046 : ℝ) := by norm_num [worldHeight]
  have hcx : (tickPlayer p now).x =
      p.x + (tx - p.x) * (3 / distance p.x p.y tx ty) := by
    rw [ex, hWH]
    exact clamp_eq_self _ _ _ hbx.1 hbx.2
  have hcy : (tickPlayer p now).y =
      p.y + (ty - p.y) * (3 / distance p.x p.y tx ty) := by
    rw [ey, hHH]
    exact clamp_eq_self _ _ _ hby.1 hby.2
  refine ⟨hcx, hcy, etx, ety, ?_, ?_⟩
  · rw [hcx, hcy]
    exact ⟨hbx.1, hbx.2, hby.1, hby.2⟩
  · rw [hcx, hcy]
    exact distance_step p.x p.y tx ty hd3

theorem pursue_no_target : ∀ (k : ℕ) (ts : ℕ → ℤ) (q : Player), q.targetX = none →
    (pursue ts k q).x = q.x ∧ (pursue ts k q).y = q.y ∧
      (pursue ts k q).targetX = none ∧ (pursue ts k q).isMoving = q.isMoving := by
  intro k
  induction k with
  | zero => intro ts q hq; exact ⟨rfl, rfl, hq, rfl⟩
  | succ k ih =>
    intro ts q hq
    obtain ⟨ex, ey, etx, _, em⟩ := tickPlayer_no_target q (ts 0) (Or.inl hq)
    have hq' : (tickPlayer q (ts 0)).targetX = none := etx.trans hq
    obtain ⟨ix, iy, itx, im⟩ := ih (fun i => ts (i + 1)) (tickPlayer q (ts 0)) hq'
    exact ⟨ix.trans ex, iy.trans ey, itx, im.trans em⟩

theorem pursue_after_snap (p : Player) (ts : ℕ → ℤ) (tx ty : ℝ) (k : ℕ)
    (hsnap : tickPlayer p (ts 0) =
      { p with x := tx, y := ty, targetX := none, targetY := none,
               isMoving := false, animationFrame := 0 }) :
    (pursue ts (k + 1) p).x = tx ∧ (pursue ts (k + 1) p).y = ty := by
  obtain ⟨ix, iy, _, _⟩ :=
    pursue_no_target k (fun i => ts (i + 1)) (tickPlayer p (ts 0)) (by rw [hsnap])
  constructor
  · show (pursue (fun i => ts (i + 1)) k (tickPlayer p (ts 0))).x = tx
    rw [ix, hsnap]
  · show (pursue (fun i => ts (i + 1)) k (tickPlayer p (ts 0))).y = ty
    rw [iy, hsnap]

theorem pursuit_aux (tx ty : ℝ) (ht : PosInBounds tx ty) :
    ∀ (n : ℕ) (ts : ℕ → ℤ) (p : Player), p.targetX = some tx → p.targetY = some ty →
      PosInBounds p.x p.y → ⌈distance p.x p.y tx ty / 3⌉₊ = n →
      (∀ k : ℕ, distance (pursue ts k p).x (pursue ts k p).y tx ty =
          max (distance p.x p.y tx ty - 3 * k) 0) ∧
      (pursue ts n p).x = tx ∧ (pursue ts n p).y = ty ∧
      (pursue ts (max 1 n) p).targetX = none ∧ (pursue ts (max 1 n) p).targetY = none ∧
      (pursue ts (max 1 n) p).isMoving = false ∧
      (pursue ts (max 1 n) p).animationFrame = 0 := by
  intro n
  induction n with
  | zero =>
    intro ts p hX hY hp hceil
    have hdge := distance_nonneg p.x p.y tx ty
    have hd0 : distance p.x p.y tx ty = 0 := by
      have h1 := Nat.ceil_eq_zero.mp hceil
      linarith
    obtain ⟨hex, hey⟩ := distance_eq_zero _ _ _ _ hd0
    have hsnap := tickPlayer_snap p (ts 0) tx ty hX hY (by rw [hd0]; norm_num)
    have hall : ∀ k : ℕ, distance (pursue ts k p).x (pursue ts k p).y tx ty =
        max (distance p.x p.y tx ty - 3 * k) 0 := by
      intro k
      cases k with
      | zero =>
        show distance p.x p.y tx ty = max (distance p.x p.y tx ty - 3 * ((0 : ℕ) : ℝ)) 0
        rw [hd0]
        norm_num
      | succ k =>
        obtain ⟨hxx, hyy⟩ := pursue_after_snap p ts tx ty k hsnap
        rw [hxx, hyy, distance_self, hd0]
        have hle : (0 : ℝ) - 3 * ((k + 1 : ℕ) : ℝ) ≤ 0 := by
          push_cast
          have : (0 : ℝ) ≤ (k : ℝ) := Nat.cast_nonneg k
          linarith
        rw [max_eq_right hle]
    refine ⟨hall, hex.symm, hey.symm, ?_, ?_, ?_, ?_⟩
    · show (tickPlayer p (ts 0)).targetX = none
      rw [hsnap]
    · show (tickPlayer p (ts 0)).targetY = none
      rw [hsnap]
    · show (tickPlayer p (ts 0)).isMoving = false
      rw [hsnap]
    · show (tickPlayer p (ts 0)).animationFrame = 0
      rw [hsnap]
  | succ n ih =>
    intro ts p hX hY hp hceil
    have hdge := distance_nonneg p.x p.y tx ty
    have hiff := (Nat.ceil_eq_iff (Nat.succ_ne_zero n)).mp hceil
    have hlb : 3 * (n : ℝ) < distance p.x p.y tx ty := by
      have h1 : ((n : ℕ) : ℝ) < distance p.x p.y tx ty / 3 := by
        have h0 := hiff.1
        simpa using h0
      have h2 := (lt_div_iff₀ (by norm_num : (0 : ℝ) < 3)).mp h1
      linarith
    have hub : distance p.x p.y tx ty ≤ 3 * ((n : ℝ) + 1) := by
      have h2 := (div_le_iff₀ (by norm_num : (0 : ℝ) < 3)).mp hiff.2
      push_cast at h2
      linarith
    by_cases hle : distance p.x p.y tx ty ≤ 3
    · have hn0 : n = 0 := by
        by_contra hn
        have h1 : 1 ≤ n := Nat.one_le_iff_ne_zero.mpr hn
        have h1' : (1 : ℝ) ≤ (n : ℝ) := by exact_mod_cast h1
        nlinarith
      subst hn0
      have hd0lt : 0 < distance p.x p.y tx ty := by simpa using hlb
      have hsnap := tickPlayer_snap p (ts 0) tx ty hX hY hle
      have hall : ∀ k : ℕ, distance (pursue ts k p).x (pursue ts k p).y tx ty =
          max (distance p.x p.y tx ty - 3 * k) 0 := by
        intro k
        cases k with
        | zero =>
          show distance p.x p.y tx ty =
            max (distance p.x p.y tx ty - 3 * ((0 : ℕ) : ℝ)) 0
          push_cast
          rw [mul_zero, sub_zero, max_eq_left hdge]
        | succ k =>
          obtain ⟨hxx, hyy⟩ := pursue_after_snap p ts tx ty k hsnap
          rw [hxx, hyy, distance_self]
          have hle2 : distance p.x p.y tx ty - 3 * ((k + 1 : ℕ) : ℝ) ≤ 0 := by
            push_cast
            have hk0 : (0 : ℝ) ≤ (k : ℝ) := Nat.cast_nonneg k
            nlinarith
          rw [max_eq_right hle2]
      refine ⟨hall, ?_, ?_, ?_, ?_, ?_, ?_⟩
      · show (tickPlayer p (ts 0)).x = tx
        rw [hsnap]
      · show (tickPlayer p (ts 0)).y = ty
        rw [hsnap]
      · show (tickPlayer p (ts 0)).targetX = none
        rw [hsnap]
      · show (tickPlayer p (ts 0)).targetY = none
        rw [hsnap]
      · show (tickPlayer p (ts 0)).isMoving = false
        rw [hsnap]
      · show (tickPlayer p (ts 0)).animationFrame = 0
        rw [hsnap]
    · have hgt3 : 3 < distance p.x p.y tx ty := not_le.mp hle
      have hn1 : 1 ≤ n := by
        by_contra hn
        have hn0 : n = 0 := by omega
        subst hn0
        norm_num at hub
        linarith
      obtain ⟨qx, qy, qtx, qty, qb, qd⟩ :=
        tickPlayer_pursue_exact p (ts 0) tx ty hX hY hp ht hle
      have hceil' :
          ⌈distance (tickPlayer p (ts 0)).x (tickPlayer p (ts 0)).y tx ty / 3⌉₊ = n := by
        rw [qd, Nat.ceil_eq_iff (Nat.one_le_iff_ne_zero.mp hn1)]
        constructor
        · have hcast : ((n - 1 : ℕ) : ℝ) = (n : ℝ) - 1 := by
            rw [Nat.cast_sub hn1]
            norm_num
          rw [hcast, lt_div_iff₀ (by norm_num : (0 : ℝ) < 3)]
          linarith
        · rw [div_le_iff₀ (by norm_num : (0 : ℝ) < 3)]
          linarith
      obtain ⟨ihall, ihx, ihy, ihtx, ihty, ihm, ihf⟩ :=
        ih (fun i => ts (i + 1)) (tickPlayer p (ts 0)) qtx qty qb hceil'
      have hmaxn : max 1 n = n := by omega
      rw [hmaxn] at ihtx ihty ihm ihf
      have hmax1 : max 1 (n + 1) = n + 1 := by omega
      have hall : ∀ k : ℕ, distance (pursue ts k p).x (pursue ts k p).y tx ty =
          max (distance p.x p.y tx ty - 3 * k) 0 := by
        intro k
        cases k with
        | zero =>
          show distance p.x p.y tx ty =
            max (distance p.x p.y tx ty - 3 * ((0 : ℕ) : ℝ)) 0
          push_cast
          rw [mul_zero, sub_zero, max_eq_left hdge]
        | succ k =>
          have hk := ihall k
          rw [qd] at hk
          show distance (pursue (fun i => ts (i + 1)) k (tickPlayer p (ts 0))).x
              (pursue (fun i => ts (i + 1)) k (tickPlayer p (ts 0))).y tx ty =
            max (distance p.x p.y tx ty - 3 * ((k + 1 : ℕ) : ℝ)) 0
          rw [hk]
          congr 1
          push_cast
          ring_nf
      refine ⟨hall, ihx, ihy, ?_, ?_, ?_, ?_⟩
      · rw [hmax1]
        exact ihtx
      · rw [hmax1]
        exact ihty
      · rw [hmax1]
        exact ihm
      · rw [hmax1]
        exact ihf

/-- Claim C3: for a player with an in-bounds target at Euclidean
distance `d` from its in-bounds position, iterating the game-loop
pursuit step at speed 3 leaves the distance at `max (d - 3k) 0` after
`k` ticks (it decreases by exactly 3 per tick and never passes the
target — no overshoot), the position equals the target exactly after
`⌈d / 3⌉` ticks, and on the terminating tick — tick `max 1 ⌈d / 3⌉`,
which is `⌈d / 3⌉` itself whenever `d > 0` — the position is snapped
onto the target, both target coordinates are cleared, `isMoving` is
false and `animationFrame` is reset to 0. -/
theorem pursuit_convergence (p : Player) (tx ty : ℝ) (ts : ℕ → ℤ)
    (hX : p.targetX = some tx) (hY : p.targetY = some ty)
    (hp : PosInBounds p.x p.y) (ht : PosInBounds tx ty) :
    (∀ k : ℕ, distance (pursue ts k p).x (pursue ts k p).y tx ty =
        max (distance p.x p.y tx ty - 3 * k) 0) ∧
      (pursue ts ⌈distance p.x p.y tx ty / 3⌉₊ p).x = tx ∧
      (pursue ts ⌈distance p.x p.y tx ty / 3⌉₊ p).y = ty ∧
      (pursue ts (max 1 ⌈distance p.x p.y tx ty / 3⌉₊) p).targetX = none ∧
      (pursue ts (max 1 ⌈distance p.x p.y tx ty / 3⌉₊) p).targetY = none ∧
      (pursue ts (max 1 ⌈distance p.x p.y tx ty / 3⌉₊) p).isMoving = false ∧
      (pursue ts (max 1 ⌈distance p.x p.y tx ty / 3⌉₊) p).animationFrame = 0 :=
  pursuit_aux tx ty ht ⌈distance p.x p.y tx ty / 3⌉₊ ts p hX hY hp rfl

theorem pursuit_convergence_witness :
    pursuerPlayer.targetX = some 100 ∧ pursuerPlayer.targetY = some 85 ∧
      PosInBounds pursuerPlayer.x pursuerPlayer.y ∧ PosInBounds 100 85 ∧
      (pursue (fun _ => 0) ⌈distance pursuerPlayer.x pursuerPlayer.y 100 85 / 3⌉₊
          pursuerPlayer).x = 100 ∧
      (pursue (fun _ => 0) ⌈distance pursuerPlayer.x pursuerPlayer.y 100 85 / 3⌉₊
          pursuerPlayer).y = 85 ∧
      (pursue (fun _ => 0)
          (max 1 ⌈distance pursuerPlayer.x pursuerPlayer.y 100 85 / 3⌉₊)
          pursuerPlayer).targetX = none ∧
      (pursue (fun _ => 0)
          (max 1 ⌈distance pursuerPlayer.x pursuerPlayer.y 100 85 / 3⌉₊)
          pursuerPlayer).isMoving = false := by
  have hpb : PosInBounds pursuerPlayer.x pursuerPlayer.y := by
    unfold PosInBounds pursuerPlayer
    norm_num
  have htb : PosInBounds (100 : ℝ) 85 := by
    unfold PosInBounds
    norm_num
  obtain ⟨_, h2, h3, h4, _, h6, _⟩ :=
    pursuit_convergence pursuerPlayer 100 85 (fun _ => 0) rfl rfl hpb htb
  exact ⟨rfl, rfl, hpb, htb, h2, h3, h4, h6⟩

end Mmorpg
